import Mathlib

/-!
Shallow embedding of the quadcopter flight-control core:
`src/Core/Src/ESC.c` (PID attitude control, motor mixing, safety clamp),
`src/Core/Src/BNO055.c` (attitude acquisition and scale conversion), and
`src/Core/Src/HC05.c` (command-link input processing).

C `int` / `int32_t` arithmetic is modelled over `Int`; C signed division
truncates toward zero and is modelled by `Int.tdiv`.  The C globals touched
by each function are collected into explicit state records, and each C
function becomes a pure state-to-state function.
-/

namespace Drone

/-- Fixed-point scaling divisor `PID_SCALE` from `ESC.c`. -/
def PID_SCALE : Int := 100000

/-- Integral anti-windup bound `max_integral` from `ESC.c`. -/
def max_integral : Int := 100000

/-- The globals read and written by `update_Motors` in `ESC.c`: PID gains,
per-axis setpoints, measurements and PID accumulators, base throttle,
throttle gain, the stop flag, and the per-motor PWM offsets. -/
structure ESCState where
  Kp_roll : Int
  Ki_roll : Int
  Kd_roll : Int
  Kp_pitch : Int
  Ki_pitch : Int
  Kd_pitch : Int
  Kp_yaw : Int
  Ki_yaw : Int
  Kd_yaw : Int
  roll_set : Int
  roll_true : Int
  roll_integral : Int
  last_roll_error : Int
  pitch_set : Int
  pitch_true : Int
  pitch_integral : Int
  last_pitch_error : Int
  yaw_set : Int
  yaw_true : Int
  yaw_integral : Int
  last_yaw_error : Int
  effort_set : Int
  K_effort : Int
  stopFlag : Bool
  motA_offset : Int
  motB_offset : Int
  motC_offset : Int
  motD_offset : Int


/-- The four motor PWM compare values `A`, `B`, `C`, `D` of `ESC.c`. -/
structure Channels where
  A : Int
  B : Int
  C : Int
  D : Int


/-- The integral clamp in `update_Motors`:
`if (x > max_integral) x = max_integral; else if (x < -max_integral) x = -max_integral;`. -/
def clampIntegral (x : Int) : Int :=
  if x > max_integral then max_integral
  else if x < -max_integral then -max_integral
  else x

/-- `roll_error = -roll_set + roll_true;` -/
def roll_error (s : ESCState) : Int := -s.roll_set + s.roll_true

/-- `roll_integral += roll_error/1000;` (scaled accumulation pass). -/
def roll_integral_scaled (s : ESCState) : Int :=
  s.roll_integral + Int.tdiv (roll_error s) 1000

/-- The roll integral immediately after the anti-windup clamp. -/
def roll_integral_clamped (s : ESCState) : Int :=
  clampIntegral (roll_integral_scaled s)

/-- `roll_integral += roll_error;` after the clamp: the roll integral at the
end of the tick. -/
def roll_integral_new (s : ESCState) : Int :=
  roll_integral_clamped s + roll_error s

/-- `roll_derivative = roll_error - last_roll_error;` -/
def roll_derivative (s : ESCState) : Int := roll_error s - s.last_roll_error

/-- The roll effort as first computed by the PID formula in `update_Motors`,
before the source overwrites it. -/
def roll_effort_computed (s : ESCState) : Int :=
  Int.tdiv (-(s.Kp_roll * roll_error s + s.Ki_roll * roll_integral_new s +
      s.Kd_roll * roll_derivative s)) PID_SCALE

/-- The roll effort actually used by the mixer: the source assigns
`roll_effort = 0;` (commented `Disabled for testing`) right after computing
the PID formula, discarding the computed value. -/
def roll_effort (_s : ESCState) : Int := 0

/-- `pitch_error = -pitch_set + pitch_true;` -/
def pitch_error (s : ESCState) : Int := -s.pitch_set + s.pitch_true

/-- `pitch_integral += pitch_error/1000;` (scaled accumulation pass). -/
def pitch_integral_scaled (s : ESCState) : Int :=
  s.pitch_integral + Int.tdiv (pitch_error s) 1000

/-- The pitch integral immediately after the anti-windup clamp. -/
def pitch_integral_clamped (s : ESCState) : Int :=
  clampIntegral (pitch_integral_scaled s)

/-- The pitch integral at the end of the tick.  Unlike roll, the source has
no `pitch_integral += pitch_error;` after the clamp. -/
def pitch_integral_new (s : ESCState) : Int := pitch_integral_clamped s

/-- `pitch_derivative = pitch_error - last_pitch_error;` -/
def pitch_derivative (s : ESCState) : Int := pitch_error s - s.last_pitch_error

/-- `pitch_effort = -(Kp_pitch*pitch_error + Ki_pitch*pitch_integral + Kd_pitch*pitch_derivative) / PID_SCALE;` -/
def pitch_effort (s : ESCState) : Int :=
  Int.tdiv (-(s.Kp_pitch * pitch_error s + s.Ki_pitch * pitch_integral_new s +
      s.Kd_pitch * pitch_derivative s)) PID_SCALE

/-- `yaw_error = -yaw_set + yaw_true;` -/
def yaw_error (s : ESCState) : Int := -s.yaw_set + s.yaw_true

/-- `yaw_integral += yaw_error;` — the yaw integral is accumulated with no
clamp anywhere in the source. -/
def yaw_integral_new (s : ESCState) : Int := s.yaw_integral + yaw_error s

/-- `yaw_derivative = yaw_error - last_yaw_error;` -/
def yaw_derivative (s : ESCState) : Int := yaw_error s - s.last_yaw_error

/-- `yaw_effort = -(Kp_yaw*yaw_error + Ki_yaw*yaw_integral + Kd_yaw*yaw_derivative) / PID_SCALE;` -/
def yaw_effort (s : ESCState) : Int :=
  Int.tdiv (-(s.Kp_yaw * yaw_error s + s.Ki_yaw * yaw_integral_new s +
      s.Kd_yaw * yaw_derivative s)) PID_SCALE

/-- Base throttle per channel: `effort_set * K_effort/PID_SCALE + mot?_offset`. -/
def baseChannels (s : ESCState) : Channels :=
  { A := Int.tdiv (s.effort_set * s.K_effort) PID_SCALE + s.motA_offset
    B := Int.tdiv (s.effort_set * s.K_effort) PID_SCALE + s.motB_offset
    C := Int.tdiv (s.effort_set * s.K_effort) PID_SCALE + s.motC_offset
    D := Int.tdiv (s.effort_set * s.K_effort) PID_SCALE + s.motD_offset }

/-- Pitch mixing stage: positive effort adds to A and D, negative effort
subtracts (adds its magnitude) to B and C. -/
def mixPitch (pitch_effort : Int) (ch : Channels) : Channels :=
  if pitch_effort > 0 then
    { ch with A := ch.A + pitch_effort, D := ch.D + pitch_effort }
  else if pitch_effort < 0 then
    { ch with B := ch.B - pitch_effort, C := ch.C - pitch_effort }
  else ch

/-- Roll mixing stage: positive effort adds to D and C, negative effort
subtracts (adds its magnitude) to B and A. -/
def mixRoll (roll_effort : Int) (ch : Channels) : Channels :=
  if roll_effort > 0 then
    { ch with D := ch.D + roll_effort, C := ch.C + roll_effort }
  else if roll_effort < 0 then
    { ch with B := ch.B - roll_effort, A := ch.A - roll_effort }
  else ch

/-- Yaw mixing stage: positive effort adds to B and D, negative effort
subtracts (adds its magnitude) to A and C. -/
def mixYaw (yaw_effort : Int) (ch : Channels) : Channels :=
  if yaw_effort > 0 then
    { ch with B := ch.B + yaw_effort, D := ch.D + yaw_effort }
  else if yaw_effort < 0 then
    { ch with A := ch.A - yaw_effort, C := ch.C - yaw_effort }
  else ch

/-- The per-channel safety stage of `update_Motors`:
`if (x < 960 | (stopFlag == true)) x = 960; if (x > 1500) x = 1500;`. -/
def safetyClamp (stopFlag : Bool) (x : Int) : Int :=
  let x1 := if x < 960 ∨ stopFlag = true then 960 else x
  if x1 > 1500 then 1500 else x1

/-- The channel values after base throttle and the three mixing stages,
before the safety clamp (source order: pitch, then roll, then yaw). -/
def preClampChannels (s : ESCState) : Channels :=
  mixYaw (yaw_effort s) (mixRoll (roll_effort s) (mixPitch (pitch_effort s) (baseChannels s)))

/-- The channel values written to the PWM compare registers, after the
safety stage. -/
def outputChannels (s : ESCState) : Channels :=
  let ch := preClampChannels s
  { A := safetyClamp s.stopFlag ch.A
    B := safetyClamp s.stopFlag ch.B
    C := safetyClamp s.stopFlag ch.C
    D := safetyClamp s.stopFlag ch.D }

/-- One tick of `update_Motors`: the mutated PID state together with the four
PWM compare values sent to the timer. -/
def update_Motors (s : ESCState) : ESCState × Channels :=
  ({ s with
      roll_integral := roll_integral_new s
      last_roll_error := roll_error s
      pitch_integral := pitch_integral_new s
      last_pitch_error := pitch_error s
      yaw_integral := yaw_integral_new s
      last_yaw_error := yaw_error s },
   outputChannels s)

/-- Positive part of an effort: the amount a mixing stage adds to the
channels on its positive branch. -/
def posPart (e : Int) : Int := if e > 0 then e else 0

/-- Magnitude an effort contributes on its negative branch. -/
def negPart (e : Int) : Int := if e < 0 then -e else 0

/-- An all-zero `ESCState` used to build concrete test states. -/
def zeroState : ESCState :=
  { Kp_roll := 0, Ki_roll := 0, Kd_roll := 0
    Kp_pitch := 0, Ki_pitch := 0, Kd_pitch := 0
    Kp_yaw := 0, Ki_yaw := 0, Kd_yaw := 0
    roll_set := 0, roll_true := 0, roll_integral := 0, last_roll_error := 0
    pitch_set := 0, pitch_true := 0, pitch_integral := 0, last_pitch_error := 0
    yaw_set := 0, yaw_true := 0, yaw_integral := 0, last_yaw_error := 0
    effort_set := 0, K_effort := 0, stopFlag := false
    motA_offset := 960, motB_offset := 960, motC_offset := 960, motD_offset := 960 }

/-- Concrete state with the stop flag raised. -/
def stopState : ESCState := { zeroState with effort_set := 500, K_effort := 100000, stopFlag := true }

/-- Concrete state on which the roll PID formula yields a nonzero value. -/
def c2State : ESCState := { zeroState with Kp_roll := 100000, roll_true := 1 }

/-- Concrete state with a nonzero pitch error. -/
def c3State : ESCState := { zeroState with pitch_true := 5000 }

/-- Reassembly of a signed 16-bit value from two little-endian bytes, as in
`BNO_Read`: `(int16_t)((eulerData[i+1] << 8) | eulerData[i])`.  The cast to
`int16_t` wraps values at and above 32768 to their two's-complement value. -/
def toInt16 (lo hi : Nat) : Int :=
  let u : Nat := (hi <<< 8) ||| lo
  if u < 32768 then (u : Int) else (u : Int) - 65536

/-- The scale conversion of `BNO_Read` from the sensor's 1/16-degree units to
millidegrees: `((int32_t)raw * 1000) / 16` with C truncating division. -/
def rawToMillideg (raw : Int) : Int := Int.tdiv (raw * 1000) 16

/-- The attitude estimate produced by `BNO_Read` (values in millidegrees). -/
structure Attitude where
  yaw : Int
  roll : Int
  pitch : Int

/-- The data-conversion part of `BNO_Read`: six raw bytes from the Euler
register block, reassembled little-endian in wire order yaw (bytes 0-1),
roll (bytes 2-3), pitch (bytes 4-5), each converted to millidegrees. -/
def BNO_Read (eulerData : Fin 6 → Nat) : Attitude :=
  { yaw := rawToMillideg (toInt16 (eulerData 0) (eulerData 1))
    roll := rawToMillideg (toInt16 (eulerData 2) (eulerData 3))
    pitch := rawToMillideg (toInt16 (eulerData 4) (eulerData 5)) }

/-- Little-endian encoding of a signed 16-bit value as two bytes
(low byte first), i.e. the sensor's wire representation. -/
def encode16 (raw : Int) : Nat × Nat :=
  let u : Nat := (raw % 65536).toNat
  (u % 256, u / 256)

/-- A six-byte Euler register block holding the raw yaw, roll and pitch
values in the sensor's wire order and byte order. -/
def eulerBytes (y r p : Int) : Fin 6 → Nat := fun i =>
  match i.val with
  | 0 => (encode16 y).1
  | 1 => (encode16 y).2
  | 2 => (encode16 r).1
  | 3 => (encode16 r).2
  | 4 => (encode16 p).1
  | _ => (encode16 p).2

/-- The state touched by `processInput` in `HC05.c`: the setpoint, effort
and dump-flag outputs it writes through pointers, the bad-input counter,
the global stop flag, and the globals it reads (`yaw_true`, `effortRate`). -/
structure BTState where
  roll : Int
  pitch : Int
  yaw : Int
  effort : Int
  dumpFlag : Int
  badBTcount : Int
  stopFlag : Bool
  yaw_true : Int
  effortRate : Int

/-- The NUL terminator a C string read finds past the last character. -/
def NUL : Char := Char.ofNat 0

/-- Decimal-digit accumulation of `strtol`: consume a maximal run of digits. -/
def parseDigits : List Char → Nat → Nat
  | [], acc => acc
  | c :: rest, acc =>
    if c.isDigit then parseDigits rest (acc * 10 + (c.toNat - 48)) else acc

/-- Model of C `strtol(token, NULL, 10)`: skip leading spaces, then an
optional sign, then a maximal run of decimal digits. -/
def strtol10 (s : List Char) : Int :=
  let t := s.dropWhile (fun c => c = ' ')
  match t with
  | '-' :: rest => -(parseDigits rest 0 : Int)
  | '+' :: rest => (parseDigits rest 0 : Int)
  | _ => (parseDigits t 0 : Int)

/-- The token sequence produced by repeated `strtok(_, ",")` on a buffer:
the non-empty chunks between commas. -/
def tokensOf (cs : List Char) : List (List Char) :=
  (cs.splitOn ',').filter (fun t => t ≠ [])

/-- The i-th parsed field of `processInput`.  `junk i` models the C local's
indeterminate value: `if (token) x = strtol(token, NULL, 10);` leaves `x`
unset when fewer tokens are present. -/
def fieldVal (cs : List Char) (junk : Fin 6 → Int) (i : Fin 6) : Int :=
  match (tokensOf cs)[i.val]? with
  | some t => strtol10 t
  | none => junk i

/-- `processInput` from `HC05.c` as a state transformer.  `charBuf` is the
received message; `junk` supplies the indeterminate initial values of the
six parsed locals. -/
def processInput (charBuf : List Char) (junk : Fin 6 → Int) (s : BTState) : BTState :=
  if charBuf.headD NUL = '#' then
    let rest := charBuf.drop 1
    let LjoyX := fieldVal rest junk 0
    let LjoyY := fieldVal rest junk 1
    let RjoyX := fieldVal rest junk 2
    let LT := fieldVal rest junk 3
    let RT := fieldVal rest junk 4
    let ENTER := fieldVal rest junk 5
    let roll := Int.tdiv (LjoyX * 180) 9
    let pitch := Int.tdiv (LjoyY * 180) 9
    let yaw0 := s.yaw_true + Int.tdiv RjoyX 10
    let yaw := if yaw0 < 0 then yaw0 + 360000
               else if yaw0 > 360000 then yaw0 - 360000 else yaw0
    let effort0 := s.effort + Int.tdiv ((RT - LT) * s.effortRate) 1000
    let effort := if effort0 < 0 then 0 else if effort0 > 1000 then 1000 else effort0
    let stopFlag := if effort0 < 0 then true else s.stopFlag
    let dumpFlag := if ENTER = 1 then 1 else s.dumpFlag
    { s with roll := roll, pitch := pitch, yaw := yaw, effort := effort,
             stopFlag := stopFlag, dumpFlag := dumpFlag }
  else
    { s with badBTcount := s.badBTcount + 1 }

/-- A baseline command-link state used to build concrete test states
(`effortRate = 10` is the source's initial value). -/
def bt0 : BTState :=
  { roll := 0, pitch := 0, yaw := 0, effort := 0, dumpFlag := 0,
    badBTcount := 0, stopFlag := false, yaw_true := 0, effortRate := 10 }

/-- Command-link state with a small positive throttle effort. -/
def bt5 : BTState := { bt0 with effort := 5 }

/-- The concrete command-link message "#0,0,0,1000,0,0" (full left trigger). -/
def bufC10 : List Char :=
  ['#', '0', ',', '0', ',', '0', ',', '1', '0', '0', '0', ',', '0', ',', '0']

theorem lor_byte (a b : Nat) (hb : b < 256) : ((a <<< 8) ||| b) = a * 256 + b := by
  apply Nat.eq_of_testBit_eq
  intro i
  rw [Nat.testBit_lor, Nat.testBit_shiftLeft]
  rcases Nat.lt_or_ge i 8 with h | h
  · have h8 : ¬ (8 ≤ i) := by omega
    simp [h8]
    interval_cases i <;>
      (simp only [Nat.testBit_to_div_mod, decide_eq_decide]; norm_num; omega)
  · obtain ⟨j, rfl⟩ : ∃ j, i = j + 8 := ⟨i - 8, by omega⟩
    have h8 : 8 ≤ j + 8 := by omega
    have hbf : b.testBit (j + 8) = false :=
      Nat.testBit_lt_two_pow (by
        calc b < 256 := hb
          _ ≤ 2 ^ (j + 8) := by
              have h256 : (256:Nat) = 2 ^ 8 := by norm_num
              rw [h256]
              exact Nat.pow_le_pow_right (by norm_num) (by omega))
    have e1 : (a * 256 + b) / 2 ^ (j + 8) = a / 2 ^ j := by
      have h2 : (2:Nat) ^ (j + 8) = 256 * 2 ^ j := by
        rw [pow_add]; ring
      rw [h2, ← Nat.div_div_eq_div_mul]
      have h3 : (a * 256 + b) / 256 = a := by omega
      rw [h3]
    simp [h8, hbf, Nat.testBit_to_div_mod, e1]

theorem toInt16_encode16 (raw : Int) (h1 : -32768 ≤ raw) (h2 : raw < 32768) :
    toInt16 (encode16 raw).1 (encode16 raw).2 = raw := by
  have hmod : (0:Int) ≤ raw % 65536 := Int.emod_nonneg raw (by norm_num)
  have hlt : raw % 65536 < 65536 := Int.emod_lt_of_pos raw (by norm_num)
  simp only [toInt16, encode16]
  rw [lor_byte ((raw % 65536).toNat / 256) ((raw % 65536).toNat % 256)
    (Nat.mod_lt _ (by norm_num))]
  have hu : (raw % 65536).toNat / 256 * 256 + (raw % 65536).toNat % 256 =
      (raw % 65536).toNat := by omega
  rw [hu]
  split_ifs with hcase <;> omega

theorem rawToMillideg_trunc (raw : Int) :
    rawToMillideg raw = if 0 ≤ raw then raw * 1000 / 16 else -((-raw * 1000) / 16) := by
  unfold rawToMillideg
  rcases le_or_lt 0 raw with h | h
  · rw [if_pos h, Int.tdiv_eq_ediv (by nlinarith) (by norm_num)]
  · rw [if_neg (not_le.mpr h)]
    have hneg : raw * 1000 = -(-raw * 1000) := by ring
    rw [hneg, Int.neg_tdiv, Int.tdiv_eq_ediv (by nlinarith) (by norm_num)]

theorem euler_eval (y r p : Int) :
    eulerBytes y r p 0 = (encode16 y).1 ∧ eulerBytes y r p 1 = (encode16 y).2 ∧
    eulerBytes y r p 2 = (encode16 r).1 ∧ eulerBytes y r p 3 = (encode16 r).2 ∧
    eulerBytes y r p 4 = (encode16 p).1 ∧ eulerBytes y r p 5 = (encode16 p).2 :=
  ⟨rfl, rfl, rfl, rfl, rfl, rfl⟩

theorem safetyClamp_mem (stop : Bool) (x : Int) :
    960 ≤ safetyClamp stop x ∧ safetyClamp stop x ≤ 1500 := by
  cases stop <;> simp only [safetyClamp] <;> split_ifs <;> simp_all

theorem safetyClamp_stop (x : Int) : safetyClamp true x = 960 := by
  norm_num [safetyClamp]

theorem clampIntegral_mem (x : Int) :
    -max_integral ≤ clampIntegral x ∧ clampIntegral x ≤ max_integral := by
  unfold clampIntegral max_integral
  split_ifs <;> omega

/-- Claim C1: after the safety stage of `update_Motors`, every channel value
lies within [960, 1500]; if the stop flag is set, every channel is exactly
the floor 960. -/
theorem C1_safety_envelope (s : ESCState) :
    (960 ≤ (update_Motors s).2.A ∧ (update_Motors s).2.A ≤ 1500) ∧
    (960 ≤ (update_Motors s).2.B ∧ (update_Motors s).2.B ≤ 1500) ∧
    (960 ≤ (update_Motors s).2.C ∧ (update_Motors s).2.C ≤ 1500) ∧
    (960 ≤ (update_Motors s).2.D ∧ (update_Motors s).2.D ≤ 1500) ∧
    (s.stopFlag = true →
      (update_Motors s).2.A = 960 ∧ (update_Motors s).2.B = 960 ∧
      (update_Motors s).2.C = 960 ∧ (update_Motors s).2.D = 960) := by
  have hch : (update_Motors s).2 = outputChannels s := rfl
  rw [hch]
  unfold outputChannels
  refine ⟨safetyClamp_mem _ _, safetyClamp_mem _ _, safetyClamp_mem _ _,
    safetyClamp_mem _ _, fun h => ?_⟩
  rw [h]
  exact ⟨safetyClamp_stop _, safetyClamp_stop _, safetyClamp_stop _, safetyClamp_stop _⟩

/-- Claim C1 witness: on a concrete armed-throttle state with the stop flag
raised, all four channels come out at the floor 960. -/
theorem C1_safety_envelope_witness :
    (update_Motors stopState).2.A = 960 ∧ (update_Motors stopState).2.B = 960 ∧
    (update_Motors stopState).2.C = 960 ∧ (update_Motors stopState).2.D = 960 :=
  (C1_safety_envelope stopState).2.2.2.2 rfl

/-- Claim C2 counterexample: on `c2State` (Kp_roll = 100000, roll_true = 1)
the roll PID formula evaluates to -1, yet the roll effort the tick produces
is 0: the source overwrites it (`roll_effort = 0; // Disabled for testing`). -/
theorem C2_roll_effort_cex :
    roll_effort c2State ≠ roll_effort_computed c2State ∧
    roll_effort c2State = 0 ∧ roll_effort_computed c2State = -1 := by decide

/-- Claim C2 (amended): per tick, error = measurement - setpoint on all three
axes, derivative = error - lastError and lastError is updated to error, and
the pitch and yaw efforts equal -(Kp*error + Ki*integral + Kd*derivative) /
PID_SCALE with PID_SCALE = 100000 and truncating division; the roll effort,
however, is forced to 0 (the computed formula value is discarded). -/
theorem C2_pid_tick_amended (s : ESCState) :
    roll_error s = s.roll_true - s.roll_set ∧
    pitch_error s = s.pitch_true - s.pitch_set ∧
    yaw_error s = s.yaw_true - s.yaw_set ∧
    roll_derivative s = roll_error s - s.last_roll_error ∧
    pitch_derivative s = pitch_error s - s.last_pitch_error ∧
    yaw_derivative s = yaw_error s - s.last_yaw_error ∧
    (update_Motors s).1.last_roll_error = roll_error s ∧
    (update_Motors s).1.last_pitch_error = pitch_error s ∧
    (update_Motors s).1.last_yaw_error = yaw_error s ∧
    pitch_effort s = Int.tdiv (-(s.Kp_pitch * pitch_error s +
      s.Ki_pitch * pitch_integral_new s + s.Kd_pitch * pitch_derivative s)) PID_SCALE ∧
    yaw_effort s = Int.tdiv (-(s.Kp_yaw * yaw_error s +
      s.Ki_yaw * yaw_integral_new s + s.Kd_yaw * yaw_derivative s)) PID_SCALE ∧
    roll_effort s = 0 ∧
    PID_SCALE = 100000 := by
  refine ⟨by unfold roll_error; ring, by unfold pitch_error; ring,
    by unfold yaw_error; ring, rfl, rfl, rfl, rfl, rfl, rfl, rfl, rfl, rfl, rfl⟩

/-- Claim C3 counterexample: on `c3State` (pitch error 5000) the tick leaves
pitch_integral = 5, not the 5005 the claimed post-clamp unscaled pass would
give: pitch has no `pitch_integral += pitch_error` after the clamp. -/
theorem C3_pitch_unscaled_pass_cex :
    (update_Motors c3State).1.pitch_integral ≠
      pitch_integral_clamped c3State + pitch_error c3State := by decide

/-- Claim C3 (amended): roll performs both accumulation passes - scaled
accumulation, clamp, then unscaled accumulation - but pitch performs only the
scaled accumulation and the clamp, with no unscaled pass. -/
theorem C3_integral_passes_amended (s : ESCState) :
    (update_Motors s).1.roll_integral =
      clampIntegral (s.roll_integral + Int.tdiv (roll_error s) 1000) + roll_error s ∧
    (update_Motors s).1.pitch_integral =
      clampIntegral (s.pitch_integral + Int.tdiv (pitch_error s) 1000) :=
  ⟨rfl, rfl⟩

/-- Claim C4: immediately after the anti-windup clamp, the roll and pitch
integrals lie within [-max_integral, max_integral] with max_integral =
100000, while the yaw integral is plain accumulation, never clamped. -/
theorem C4_integral_clamp_bounds (s : ESCState) :
    (-max_integral ≤ roll_integral_clamped s ∧ roll_integral_clamped s ≤ max_integral) ∧
    (-max_integral ≤ pitch_integral_clamped s ∧ pitch_integral_clamped s ≤ max_integral) ∧
    max_integral = 100000 ∧
    (update_Motors s).1.yaw_integral = s.yaw_integral + yaw_error s :=
  ⟨clampIntegral_mem _, clampIntegral_mem _, rfl, rfl⟩

/-- Claim C5: the three mixing stages are additive and independent - positive
pitch adds to A and D, negative pitch adds its magnitude to B and C, positive
roll adds to D and C, negative roll to B and A, positive yaw adds to B and D,
negative yaw to A and C - and with pitch effort +50 and roll = yaw = 0,
channels A and D increase by exactly 50 pre-clamp while B and C are
unchanged. -/
theorem C5_mixing_matrix (p r y : Int) (ch : Channels) :
    mixYaw y (mixRoll r (mixPitch p ch)) =
      { A := ch.A + posPart p + negPart r + negPart y
        B := ch.B + negPart p + negPart r + posPart y
        C := ch.C + negPart p + posPart r + negPart y
        D := ch.D + posPart p + posPart r + posPart y } ∧
    mixYaw 0 (mixRoll 0 (mixPitch 50 ch)) =
      { A := ch.A + 50, B := ch.B, C := ch.C, D := ch.D + 50 } := by
  obtain ⟨a, b, c, d⟩ := ch
  constructor
  · simp only [mixYaw, mixRoll, mixPitch, posPart, negPart]
    split_ifs <;> simp_all <;> omega
  · norm_num [mixYaw, mixRoll, mixPitch]

/-- Claim C8: the mixing stage is deterministic - two calls on identical
inputs and identical PID state produce identical channel values. -/
theorem C8_mix_deterministic (s1 s2 : ESCState) (h : s1 = s2) :
    (update_Motors s1).2 = (update_Motors s2).2 := by rw [h]

/-- Claim C8 witness: instantiated at the all-zero state. -/
theorem C8_mix_deterministic_witness :
    (update_Motors zeroState).2 = (update_Motors zeroState).2 :=
  C8_mix_deterministic zeroState zeroState rfl

/-- Claim C6: the `BNO_Read` conversion reassembles the three signed 16-bit
raw values little-endian in wire order yaw (bytes 0-1), roll (bytes 2-3),
pitch (bytes 4-5), and converts each exactly by raw * 1000 / 16 with integer
division truncating toward zero for positive and negative raw values. -/
theorem C6_readAttitude_conversion (y r p : Int)
    (hy1 : -32768 ≤ y) (hy2 : y < 32768)
    (hr1 : -32768 ≤ r) (hr2 : r < 32768)
    (hp1 : -32768 ≤ p) (hp2 : p < 32768) :
    BNO_Read (eulerBytes y r p) =
      { yaw := rawToMillideg y, roll := rawToMillideg r, pitch := rawToMillideg p } ∧
    (∀ raw : Int, rawToMillideg raw =
        if 0 ≤ raw then raw * 1000 / 16 else -((-raw * 1000) / 16)) := by
  constructor
  · unfold BNO_Read
    rw [(euler_eval y r p).1, (euler_eval y r p).2.1, (euler_eval y r p).2.2.1,
      (euler_eval y r p).2.2.2.1, (euler_eval y r p).2.2.2.2.1,
      (euler_eval y r p).2.2.2.2.2,
      toInt16_encode16 y hy1 hy2, toInt16_encode16 r hr1 hr2,
      toInt16_encode16 p hp1 hp2]
  · exact rawToMillideg_trunc

/-- Claim C6 witness: instantiated at yaw -1, roll 100, pitch -32768. -/
theorem C6_readAttitude_conversion_witness :
    BNO_Read (eulerBytes (-1) 100 (-32768)) =
      { yaw := rawToMillideg (-1), roll := rawToMillideg 100,
        pitch := rawToMillideg (-32768) } ∧
    rawToMillideg (-1) =
      (if (0:Int) ≤ -1 then (-1) * 1000 / 16 else -((-(-1) * 1000) / 16)) :=
  ⟨(C6_readAttitude_conversion (-1) 100 (-32768) (by norm_num) (by norm_num)
      (by norm_num) (by norm_num) (by norm_num) (by norm_num)).1,
   (C6_readAttitude_conversion (-1) 100 (-32768) (by norm_num) (by norm_num)
      (by norm_num) (by norm_num) (by norm_num) (by norm_num)).2 (-1)⟩

/-- Claim C7: a message whose first character is not '#' only increments the
bad-input counter: setpoints, effort, dump flag and stop flag are all left
untouched. -/
theorem C7_malformed_input (charBuf : List Char) (junk : Fin 6 → Int) (s : BTState)
    (h : charBuf.headD NUL ≠ '#') :
    processInput charBuf junk s = { s with badBTcount := s.badBTcount + 1 } := by
  unfold processInput
  rw [if_neg h]

/-- Claim C7 witness: a concrete malformed one-character message. -/
theorem C7_malformed_input_witness :
    processInput ['x'] (fun _ => 7) bt0 = { bt0 with badBTcount := bt0.badBTcount + 1 } :=
  C7_malformed_input ['x'] (fun _ => 7) bt0 (by decide)

/-- Claim C9: `processInput` validates only the first character - the
bad-input counter is bumped exactly when the message does not start with '#',
and a '#'-message is processed (the roll setpoint is written from the first
field) no matter how many comma-separated fields it has. -/
theorem C9_first_char_validation (charBuf : List Char) (junk : Fin 6 → Int) (s : BTState) :
    (processInput charBuf junk s).badBTcount =
      s.badBTcount + (if charBuf.headD NUL = '#' then 0 else 1) ∧
    (charBuf.headD NUL = '#' →
      (processInput charBuf junk s).roll =
        Int.tdiv (fieldVal (charBuf.drop 1) junk 0 * 180) 9) := by
  unfold processInput
  split_ifs with h
  · exact ⟨by simp, fun _ => rfl⟩
  · exact ⟨by simp, fun hc => absurd hc h⟩

/-- Claim C9 witness: the two-field message "#1,2" is not rejected and its
first field lands in the roll setpoint. -/
theorem C9_first_char_validation_witness :
    (processInput ['#', '1', ',', '2'] (fun _ => 7) bt0).badBTcount =
      bt0.badBTcount +
        (if (['#', '1', ',', '2'] : List Char).headD NUL = '#' then 0 else 1) ∧
    (processInput ['#', '1', ',', '2'] (fun _ => 7) bt0).roll =
      Int.tdiv (fieldVal ((['#', '1', ',', '2'] : List Char).drop 1) (fun _ => 7) 0 * 180) 9 :=
  ⟨(C9_first_char_validation ['#', '1', ',', '2'] (fun _ => 7) bt0).1,
   (C9_first_char_validation ['#', '1', ',', '2'] (fun _ => 7) bt0).2 (by decide)⟩

/-- Claim C10: after a '#'-prefixed call the effort lies in [0, 1000], and
whenever the accumulated effort would go negative it is reset to 0 and the
global stop flag is raised. -/
theorem C10_effort_envelope (charBuf : List Char) (junk : Fin 6 → Int) (s : BTState)
    (h : charBuf.headD NUL = '#') :
    (0 ≤ (processInput charBuf junk s).effort ∧
      (processInput charBuf junk s).effort ≤ 1000) ∧
    (s.effort + Int.tdiv ((fieldVal (charBuf.drop 1) junk 4 -
        fieldVal (charBuf.drop 1) junk 3) * s.effortRate) 1000 < 0 →
      (processInput charBuf junk s).effort = 0 ∧
      (processInput charBuf junk s).stopFlag = true) := by
  unfold processInput
  rw [if_pos h]
  dsimp only
  constructor
  · split_ifs <;> omega
  · intro hneg
    simp only [if_pos hneg]
    refine ⟨?_, ?_⟩ <;> first | rfl | exact trivial

/-- Claim C10 witness: on "#0,0,0,1000,0,0" with effort 5 and effortRate 10
the accumulated effort would be -5, so effort is reset to 0 and the stop flag
set. -/
theorem C10_effort_envelope_witness :
    (0 ≤ (processInput bufC10 (fun _ => 7) bt5).effort ∧
      (processInput bufC10 (fun _ => 7) bt5).effort ≤ 1000) ∧
    ((processInput bufC10 (fun _ => 7) bt5).effort = 0 ∧
      (processInput bufC10 (fun _ => 7) bt5).stopFlag = true) :=
  ⟨(C10_effort_envelope bufC10 (fun _ => 7) bt5 (by decide)).1,
   (C10_effort_envelope bufC10 (fun _ => 7) bt5 (by decide)).2 (by decide)⟩

end Drone
